import Mathlib

/-!
Verification of the single-seat riichi player-state engine of this
repository.  The sources under `src/` contain the `PlayerState` struct
declaration (`state/player_state.rs`), the engine's test suite
(`state/test.rs`) and the log-validator binary (`bin/validate_logs.rs`);
the bodies of the update / candidate-detection / scoring routines are not
part of the source drop, so those routines are modelled from the
specification (marked `Modelled from the spec:` below), with the concrete
behaviour pinned by the assertions of `state/test.rs`.
-/

namespace Mortal

/-- Base tile ids 0..33 in the order of the spec §3: 1m..9m = 0..8,
1p..9p = 9..17, 1s..9s = 18..26, then E,S,W,N,P,F,C = 27..33. -/
abbrev Tile := Nat

/-- Wire-level tile: a base tile possibly marked as a red five ("aka"),
or the unknown placeholder `?` dealt to another seat (spec §3). -/
inductive T37 where
  | tile (base : Tile) (red : Bool)
  | unknown
deriving DecidableEq

/-- The `deaka` projection of the spec §3: collapse a red five to its base
id.  The unknown placeholder is mapped to the out-of-range sentinel 34. -/
def T37.deaka : T37 → Tile
  | .tile b _ => b
  | .unknown => 34

/-- Whether a wire tile is a red five. -/
def T37.isRed : T37 → Bool
  | .tile _ r => r
  | .unknown => false

/-- 34-slot unsigned count vector for hands (spec §3, "Hand (tehai)"). -/
abbrev Counts := List Nat

/-- The all-zero count vector. -/
def zero34 : Counts := List.replicate 34 0

/-- Count of tile `t` in a count vector. -/
def cnt (h : Counts) (t : Tile) : Nat := h.getD t 0

/-- Add one copy of tile `t`. -/
def incC (h : Counts) (t : Tile) : Counts := h.set t (cnt h t + 1)

/-- Remove one copy of tile `t`. -/
def decC (h : Counts) (t : Tile) : Counts := h.set t (cnt h t - 1)

/-- Remove two copies of tile `t` (a pair candidate). -/
def dec2C (h : Counts) (t : Tile) : Counts := h.set t (cnt h t - 2)

/-- Total number of tiles in a count vector. -/
def sumC (h : Counts) : Nat := h.foldr (· + ·) 0

/-- Scan one suit segment left to right; `x` and `y` are the numbers of
runs started at the previous slot and the slot before it, each of which
still claims one tile here.  After serving them, the number of new runs
starting at this slot must equal the leftover modulo 3 (exchanging three
runs for three triplets is always possible), so the greedy scan is
complete.  A run that would overrun the segment leaves a nonzero carry
that the empty case rejects. -/
def suitStep (x y : Nat) : List Nat → Bool
  | [] => x == 0 && y == 0
  | a :: rest =>
    if x + y ≤ a then suitStep ((a - x - y) % 3) x rest else false

/-- Decide whether a single suit segment (up to 9 slots) decomposes
entirely into runs (i, i+1, i+2) and triplets. -/
def suitOk (l : List Nat) : Bool := suitStep 0 0 l

/-- Honor slots decompose only into triplets (spec §4.1: "within honors
only triplets"). -/
def honorOk (l : List Nat) : Bool := l.all (· % 3 == 0)

/-- Decide whether a count vector (with the pair already removed)
decomposes entirely into melds: runs inside each numbered suit, triplets
anywhere. -/
def groupsOk (h : Counts) : Bool :=
  suitOk (h.take 9) && suitOk ((h.drop 9).take 9) &&
    suitOk ((h.drop 18).take 9) && honorOk (h.drop 27)

/-- Standard-form completeness: some pair plus a full decomposition of
the rest into runs and triplets (spec §4.1 "Standard algorithm",
specialised to distance -1). -/
def standardComplete (h : Counts) : Bool :=
  (List.range 34).any fun p => 2 ≤ cnt h p && groupsOk (dec2C h p)

/-- Seven-pairs completeness: seven distinct pairs (spec §4.1). -/
def chiitoiComplete (h : Counts) : Bool :=
  h.all (fun c => c == 0 || c == 2) && ((h.filter (· == 2)).length == 7)

/-- The thirteen terminal/honor tile ids used by kokushi. -/
def yaochuu : List Tile := [0, 8, 9, 17, 18, 26, 27, 28, 29, 30, 31, 32, 33]

/-- Kokushi completeness: one of each terminal/honor plus a pair of one of
them (spec §4.1). -/
def kokushiComplete (h : Counts) : Bool :=
  ((List.range 34).all fun t =>
    if t ∈ yaochuu then 1 ≤ cnt h t else cnt h t == 0) &&
  sumC h == 14

/-- Completeness of a closed part given the number of called meld groups:
seven pairs and kokushi require a concealed hand (spec §4.1 contract). -/
def isCompleteWith (h : Counts) (melds : Nat) : Bool :=
  standardComplete h ||
    (melds == 0 && sumC h == 14 && (chiitoiComplete h || kokushiComplete h))

/-- Modelled from the spec: the `waits` derived table (§3): the set of
tiles that would complete the hand, ignoring the yaku requirement.  The
table is recomputed only when the closed hand is one tile short of a
multiple of three (13-like shape); see `waitsUpd`.  A tile whose
four copies are already in the closed hand cannot be waited on (pinned by
the `2344445666678s` wait pattern of `state/test.rs`, which excludes 4s
and 6s). -/
def waitsOf (h : Counts) (melds : Nat) : List Bool :=
  if sumC h % 3 == 1 then
    (List.range 34).map fun t => decide (cnt h t ≤ 3) && isCompleteWith (incC h t) melds
  else
    List.replicate 34 false

/-- Modelled from the spec: the incremental form used by the update
routine: away from the 13-like shape the recomputation is skipped and the
previous table survives (spec §4.3 "Derived tables that are unchanged by
the event kind may be skipped"; pinned by `state/test.rs`, which expects
the tenpai waits still set right after the riichi seat's draw, yet an
all-false table after the very first draw). -/
def waitsUpd (h : Counts) (melds : Nat) (old : List Bool) : List Bool :=
  if sumC h % 3 == 1 then waitsOf h melds else old

/-- Dora successor rule of the spec §3: within a numbered suit 1→2→…→9→1,
within winds E→S→W→N→E, within dragons P→F→C→P. -/
def doraNext (ind : Tile) : Tile :=
  if ind < 9 then (ind + 1) % 9
  else if ind < 18 then 9 + (ind - 9 + 1) % 9
  else if ind < 27 then 18 + (ind - 18 + 1) % 9
  else if ind < 31 then 27 + (ind - 27 + 1) % 4
  else 31 + (ind - 31 + 1) % 3

/-- The `dora_factor` table of the spec §3: how many dora a tile id is
worth, summed over all revealed indicators. -/
def doraFactor (inds : List Tile) (t : Tile) : Nat :=
  (inds.filter fun i => doraNext i == t).length

/-- Index into `akas_in_hand` for the three red-capable base tiles
(5m = 4, 5p = 13, 5s = 22). -/
def akaIdx (b : Tile) : Option Nat :=
  if b == 4 then some 0 else if b == 13 then some 1
  else if b == 22 then some 2 else none

/-- Set the aka flag for a base tile, when it has one. -/
def setAka (l : List Bool) (b : Tile) (v : Bool) : List Bool :=
  match akaIdx b with
  | some i => l.set i v
  | none => l

/-- The `ActionCandidate` bitfield of the spec §4.2, mirroring the field
list of `src/bin/validate_logs.rs` and `state/test.rs`. -/
structure ActionCandidate where
  can_discard : Bool := false
  can_chi_low : Bool := false
  can_chi_mid : Bool := false
  can_chi_high : Bool := false
  can_pon : Bool := false
  can_daiminkan : Bool := false
  can_ankan : Bool := false
  can_kakan : Bool := false
  can_riichi : Bool := false
  can_tsumo_agari : Bool := false
  can_ron_agari : Bool := false
deriving DecidableEq

/-- The mjai event stream consumed by the engine (spec §6 table).  Payload
fields not read by any modelled routine (honba, kyotaku, tsumogiri
payloads of terminal events, …) are kept where the table lists them. -/
inductive Event where
  | start_kyoku (bakaze : Tile) (kyoku honba kyotaku : Nat) (oya : Nat)
      (scores : List Int) (dora_marker : T37) (tehais : List (List T37))
  | tsumo (actor : Nat) (pai : T37)
  | dahai (actor : Nat) (pai : T37) (tsumogiri : Bool)
  | chi (actor target : Nat) (pai : T37) (consumed : List T37)
  | pon (actor target : Nat) (pai : T37) (consumed : List T37)
  | daiminkan (actor target : Nat) (pai : T37) (consumed : List T37)
  | ankan (actor : Nat) (consumed : List T37)
  | kakan (actor : Nat) (pai : T37) (consumed : List T37)
  | dora (dora_marker : T37)
  | reach (actor : Nat)
  | reach_accepted (actor : Nat)
  | hora (actor target : Nat)
  | ryukyoku
  | end_kyoku
  | end_game
deriving DecidableEq

/-- Modelled from the spec: the portion of `PlayerState`
(`state/player_state.rs`) that drives the update machinery of §4.3, whose
implementation is not under `src/`.  Per-seat arrays are reduced to the
tracked seat where only the tracked seat's value is ever observable in
the modelled behaviour; `temp_furiten` / `riichi_furiten` split the
spec §4.5 furiten kinds that the source folds into `at_furiten`. -/
structure MState where
  player_id : Nat := 0
  tehai : Counts := zero34
  akas_in_hand : List Bool := [false, false, false]
  chis : List Tile := []
  pons : List Tile := []
  minkans : List Tile := []
  ankans : List Tile := []
  meld_tiles : List T37 := []
  dora_indicators : List Tile := []
  tiles_left : Nat := 0
  scores : List Int := [0, 0, 0, 0]
  bakaze : Tile := 27
  jikaze : Tile := 27
  oya : Nat := 0
  at_turn : Nat := 0
  discarded_tiles : List Bool := List.replicate 34 false
  waits : List Bool := List.replicate 34 false
  riichi_declared_self : Bool := false
  riichi_accepted_self : Bool := false
  is_menzen : Bool := true
  at_ippatsu : Bool := false
  at_rinshan : Bool := false
  at_furiten : Bool := false
  same_cycle_pending : Bool := false
  temp_furiten : Bool := false
  riichi_furiten : Bool := false
  chankan_chance : Bool := false
  kans_on_board : Nat := 0
  last_self_tsumo : Option T37 := none
  last_kawa_tile : Option T37 := none
  last_cans : ActionCandidate := {}
deriving DecidableEq

/-- Number of called meld groups of the tracked seat. -/
def meldCount (s : MState) : Nat :=
  s.chis.length + s.pons.length + s.minkans.length + s.ankans.length

/-- Modelled from the spec: `doras_owned[0]` (§3), the dora count held by
the tracked seat, including aka in hand and aka in melds. -/
def doras_owned0 (s : MState) : Nat :=
  ((List.range 34).map fun t =>
    cnt s.tehai t * doraFactor s.dora_indicators t).foldr (· + ·) 0 +
  (s.meld_tiles.map fun x => doraFactor s.dora_indicators x.deaka).foldr (· + ·) 0 +
  (s.akas_in_hand.filter id).length +
  (s.meld_tiles.filter T37.isRed).length

/-- One meld group in a hand decomposition: a run starting at `start`, or
a triplet of `t`. -/
inductive Block where
  | run (start : Tile)
  | trip (t : Tile)
deriving DecidableEq

/-- Enumerate the decompositions of one suit segment into runs and
triplets; `base` is the absolute id of the head slot, `x` and `y` the
numbers of runs started at the previous slot and the one before it (as in
`suitStep`).  After serving the carried runs, any run count congruent to
the leftover modulo 3 may start here; infeasible choices die downstream
when a carry survives past the segment end. -/
def segDecompsAux (base x y : Nat) : List Nat → List (List Block)
  | [] => if x == 0 && y == 0 then [[]] else []
  | a :: rest =>
    if x + y ≤ a then
      let b := a - x - y
      ((List.range (b + 1)).filter fun r => r % 3 == b % 3).flatMap fun r =>
        (segDecompsAux (base + 1) r x rest).map fun bs =>
          List.replicate r (Block.run base) ++
            List.replicate ((b - r) / 3) (Block.trip base) ++ bs
    else []

/-- All run/triplet decompositions of one suit segment. -/
def segDecomps (base : Nat) (l : List Nat) : List (List Block) :=
  segDecompsAux base 0 0 l

/-- Honor slots only form triplets. -/
def honorTrips (base : Nat) : List Nat → Option (List Block)
  | [] => some []
  | a :: rest =>
    if a % 3 == 0 then
      (honorTrips (base + 1) rest).map
        (List.replicate (a / 3) (Block.trip base) ++ ·)
    else none

/-- A standard-form decomposition of the closed part: the pair plus the
closed meld groups. -/
structure Decomp where
  pair : Tile
  blocks : List Block
deriving DecidableEq

/-- All standard-form decompositions of a closed count vector. -/
def closedDecomps (h : Counts) : List Decomp :=
  (List.range 34).flatMap fun p =>
    if 2 ≤ cnt h p then
      let h' := dec2C h p
      match honorTrips 27 (h'.drop 27) with
      | none => []
      | some hz =>
        (segDecomps 0 (h'.take 9)).flatMap fun bm =>
          (segDecomps 9 ((h'.drop 9).take 9)).flatMap fun bp =>
            (segDecomps 18 ((h'.drop 18).take 9)).map fun bs =>
              ⟨p, bm ++ bp ++ bs ++ hz⟩
    else []

/-- The shape of the wait that the winning tile completed, which decides
the 2-fu wait bonus and pinfu. -/
inductive WaitKind where
  | ryanmen
  | kanchan
  | penchan
  | shanpon
  | tanki
deriving DecidableEq

/-- Ways the winning tile can sit inside one block. -/
def blockMarks (win : Tile) : Block → List WaitKind
  | .run st =>
    (if win == st + 1 then [WaitKind.kanchan] else []) ++
    (if win == st then
      (if st % 9 == 6 then [WaitKind.penchan] else [WaitKind.ryanmen])
     else []) ++
    (if win == st + 2 then
      (if st % 9 == 0 then [WaitKind.penchan] else [WaitKind.ryanmen])
     else [])
  | .trip t => if win == t then [WaitKind.shanpon] else []

/-- A mark: the wait kind plus whether the winning tile completed a
closed triplet (relevant to fu and to the concealed-triplet yaku). -/
structure Mark where
  kind : WaitKind
  onTrip : Bool
deriving DecidableEq

/-- All marks of a decomposition for a given winning tile. -/
def marksOf (d : Decomp) (win : Tile) : List Mark :=
  (if d.pair == win then [⟨WaitKind.tanki, false⟩] else []) ++
  d.blocks.flatMap fun b =>
    (blockMarks win b).map fun k =>
      ⟨k, match b with | .trip _ => true | _ => false⟩

/-- Winning-tile context for scoring (spec §4.4 input list). -/
structure WinCtx where
  isRon : Bool
  winTile : Tile
  menzen : Bool
  riichi : Bool
  ippatsu : Bool
  rinshan : Bool
  chankan : Bool
  lastTile : Bool
  bakaze : Tile
  jikaze : Tile
  chis : List Tile
  pons : List Tile
  minkans : List Tile
  ankans : List Tile
  fullCounts : Counts

/-- Terminal-or-honor test on base ids. -/
def yaochuuB (t : Tile) : Bool := 27 ≤ t || t % 9 == 0 || t % 9 == 8

/-- Dragon test on base ids. -/
def isDragon (t : Tile) : Bool := 31 ≤ t && t ≤ 33

/-- One meld group of the full hand (closed or called) as seen by the
yaku and fu computations. -/
structure SetInfo where
  isRun : Bool
  tile : Tile
  isOpen : Bool
  isKan : Bool
deriving DecidableEq

/-- All meld groups of the full hand for one decomposition of the closed
part. -/
def setsOf (ctx : WinCtx) (d : Decomp) : List SetInfo :=
  d.blocks.map (fun b => match b with
    | .run st => ⟨true, st, false, false⟩
    | .trip t => ⟨false, t, false, false⟩) ++
  ctx.chis.map (⟨true, ·, true, false⟩) ++
  ctx.pons.map (⟨false, ·, true, false⟩) ++
  ctx.minkans.map (⟨false, ·, true, true⟩) ++
  ctx.ankans.map (⟨false, ·, false, true⟩)

/-- All base ids present anywhere in the full hand (closed part plus
called melds). -/
def allIds (ctx : WinCtx) : List Tile :=
  ((List.range 34).filter fun t => !(cnt ctx.fullCounts t == 0)) ++
  ctx.chis.flatMap (fun st => [st, st + 1, st + 2]) ++
  ctx.pons ++ ctx.minkans ++ ctx.ankans

/-- Modelled from the spec: the flush-family and all-tile-family yaku of
§4.4 that depend only on the set of tiles present: tanyao, honitsu,
chinitsu, honroutou. -/
def flushHan (ctx : WinCtx) : Nat :=
  let ids := allIds ctx
  let anyHonor := ids.any fun t => 27 ≤ t
  let man := ids.any fun t => t < 9
  let pin := ids.any fun t => 9 ≤ t && t < 18
  let sou := ids.any fun t => 18 ≤ t && t < 27
  let suitN := (if man then 1 else 0) + (if pin then 1 else 0) +
    (if sou then 1 else 0)
  (if ids.all (fun t => !yaochuuB t) then 1 else 0) +
  (if suitN == 1 && anyHonor then (if ctx.menzen then 3 else 2) else 0) +
  (if suitN == 1 && !anyHonor then (if ctx.menzen then 6 else 5) else 0) +
  (if ids.all yaochuuB then 2 else 0)

/-- Whether a decomposition-with-mark is pinfu: fully concealed, four
runs, non-yakuhai pair, two-sided wait (spec §4.4 / §7 glossary). -/
def isPinfu (ctx : WinCtx) (d : Decomp) (mk : Mark) : Bool :=
  ctx.menzen && ctx.chis.isEmpty && ctx.pons.isEmpty &&
  ctx.minkans.isEmpty && ctx.ankans.isEmpty &&
  d.blocks.all (fun b => match b with | .run _ => true | _ => false) &&
  !(isDragon d.pair || d.pair == ctx.bakaze || d.pair == ctx.jikaze) &&
  mk.kind == WaitKind.ryanmen

/-- Modelled from the spec: the decomposition-dependent yaku of §4.4
(pinfu, yakuhai, sanshoku, ittsuu, toitoi, sanankou, shousangen,
daisangen, suuankou, chanta, junchan), in han. -/
def decompYakuHan (ctx : WinCtx) (d : Decomp) (mk : Mark) : Nat :=
  let sets := setsOf ctx d
  let runs := sets.filter (·.isRun)
  let trips := sets.filter fun s => !s.isRun
  let closedTripN := d.blocks.countP fun b =>
    match b with
    | .trip t => !(ctx.isRon && mk.onTrip && t == ctx.winTile)
    | _ => false
  let concealedN := closedTripN + ctx.ankans.length
  let dragonTripN := (trips.filter fun s => isDragon s.tile).length
  let allOuter :=
    sets.all (fun s =>
      if s.isRun then s.tile % 9 == 0 || s.tile % 9 == 6
      else yaochuuB s.tile) && yaochuuB d.pair
  let anyHonor := (allIds ctx).any fun t => 27 ≤ t
  (if isPinfu ctx d mk then 1 else 0) +
  (trips.filter fun s => isDragon s.tile).length +
  (trips.filter fun s => s.tile == ctx.bakaze).length +
  (trips.filter fun s => s.tile == ctx.jikaze).length +
  (if (List.range 7).any (fun n =>
      [n, n + 9, n + 18].all fun st => runs.any (·.tile == st)) then
    (if ctx.menzen then 2 else 1) else 0) +
  (if [0, 9, 18].any (fun b =>
      [b, b + 3, b + 6].all fun st => runs.any (·.tile == st)) then
    (if ctx.menzen then 2 else 1) else 0) +
  (if runs.isEmpty then 2 else 0) +
  (if concealedN == 3 then 2 else 0) +
  (if concealedN == 4 then 13 else 0) +
  (if dragonTripN == 2 && isDragon d.pair then 2 else 0) +
  (if dragonTripN == 3 then 13 else 0) +
  (if allOuter && anyHonor && !runs.isEmpty then
    (if ctx.menzen then 2 else 1) else 0) +
  (if allOuter && !anyHonor then (if ctx.menzen then 3 else 2) else 0) +
  flushHan ctx

/-- Modelled from the spec: the situational yaku of §4.2/§4.4: riichi,
ippatsu, menzen-tsumo, haitei/houtei, rinshan, chankan. -/
def situHan (ctx : WinCtx) : Nat :=
  (if ctx.riichi then 1 else 0) +
  (if ctx.ippatsu then 1 else 0) +
  (if ctx.menzen && !ctx.isRon then 1 else 0) +
  (if ctx.lastTile then 1 else 0) +
  (if ctx.rinshan && !ctx.isRon then 1 else 0) +
  (if ctx.chankan && ctx.isRon then 1 else 0)

/-- Round fu up to the next multiple of ten. -/
def roundUp10 (n : Nat) : Nat := (n + 9) / 10 * 10

/-- Modelled from the spec: the standard fu decomposition of §4.4:
20 base, 10 menzen-ron, 2 tsumo (except pinfu), triplet/kan fu, yakuhai
pair fu, 2 for a one-sided wait; pinfu-tsumo is pinned at 20 fu and an
open all-run ron hand scores 30 fu (the open-pinfu convention of the
official table, required for the 1000-point chankan fixture of
`state/test.rs`). -/
def decompFu (ctx : WinCtx) (d : Decomp) (mk : Mark) : Nat :=
  if isPinfu ctx d mk && !ctx.isRon then 20
  else
    let closedFu := d.blocks.foldr (fun b acc =>
      match b with
      | .run _ => acc
      | .trip t =>
        acc + (if ctx.isRon && mk.onTrip && t == ctx.winTile then
            (if yaochuuB t then 4 else 2)
          else (if yaochuuB t then 8 else 4))) 0
    let meldFu :=
      (ctx.pons.map fun t => if yaochuuB t then 4 else 2).foldr (· + ·) 0 +
      (ctx.minkans.map fun t => if yaochuuB t then 16 else 8).foldr (· + ·) 0 +
      (ctx.ankans.map fun t => if yaochuuB t then 32 else 16).foldr (· + ·) 0
    let pairFu := (if isDragon d.pair then 2 else 0) +
      (if d.pair == ctx.bakaze then 2 else 0) +
      (if d.pair == ctx.jikaze then 2 else 0)
    let waitFu := match mk.kind with
      | .kanchan | .penchan | .tanki => 2
      | _ => 0
    let tot := 20 + (if ctx.menzen && ctx.isRon then 10 else 0) +
      (if !ctx.isRon && !isPinfu ctx d mk then 2 else 0) +
      closedFu + meldFu + pairFu + waitFu
    if !ctx.menzen && ctx.isRon && tot == 20 then 30 else roundUp10 tot

/-- Chiitoitsu side yaku: the tile-set yaku still apply. -/
def chiitoiHan (ctx : WinCtx) : Nat := 2 + flushHan ctx

/-- Candidate (yaku-han, fu) pairs over all decompositions, plus the
seven-pairs and kokushi readings when the hand is concealed. -/
def scoreCands (ctx : WinCtx) : List (Nat × Nat) :=
  let noMelds := ctx.chis.isEmpty && ctx.pons.isEmpty &&
    ctx.minkans.isEmpty && ctx.ankans.isEmpty
  ((closedDecomps ctx.fullCounts).flatMap fun d =>
    (marksOf d ctx.winTile).map fun mk =>
      (situHan ctx + decompYakuHan ctx d mk, decompFu ctx d mk)) ++
  (if noMelds && chiitoiComplete ctx.fullCounts then
    [(situHan ctx + chiitoiHan ctx, 25)] else []) ++
  (if noMelds && kokushiComplete ctx.fullCounts then
    [(13 + situHan ctx, 30)] else [])

/-- Whether at least one yaku exists for the context (aka/dora never
satisfy the yaku requirement, spec §4.4). -/
def hasYakuCtx (ctx : WinCtx) : Bool :=
  (scoreCands ctx).any fun c => 0 < c.1

/-- Basic points from han and fu: the official limit ladder with the
mangan cap at 2000 basic points (spec §4.4). -/
def basePts (han fu : Nat) : Nat :=
  if 13 ≤ han then 8000
  else if 11 ≤ han then 6000
  else if 8 ≤ han then 4000
  else if 6 ≤ han then 3000
  else min (fu * 2 ^ (2 + han)) 2000

/-- Round a payment up to the next multiple of 100 (spec §4.4). -/
def roundUp100 (n : Nat) : Nat := (n + 99) / 100 * 100

/-- The point payment triple returned by `agari_points` (spec §4.4). -/
structure Point where
  ron : Nat
  tsumo_oya : Nat
  tsumo_ko : Nat
deriving DecidableEq

/-- Payments from basic points for a dealer / non-dealer winner. -/
def pointsFor (isOya : Bool) (base : Nat) : Point :=
  if isOya then ⟨roundUp100 (6 * base), 0, roundUp100 (2 * base)⟩
  else ⟨roundUp100 (4 * base), roundUp100 (2 * base), roundUp100 base⟩

/-- Seat rotation of the spec §9: `rel = (abs - self + 4) mod 4`. -/
def relSeat (pid actor : Nat) : Nat := (actor + 4 - pid) % 4

/-- Add one wire tile to the closed hand (aka bookkeeping of §3). -/
def addTile (h : Counts) (akas : List Bool) (x : T37) : Counts × List Bool :=
  match x with
  | .unknown => (h, akas)
  | .tile b r => (incC h b, if r then setAka akas b true else akas)

/-- Remove one wire tile from the closed hand. -/
def removeTile (h : Counts) (akas : List Bool) (x : T37) :
    Counts × List Bool :=
  match x with
  | .unknown => (h, akas)
  | .tile b r => (decC h b, if r then setAka akas b false else akas)

/-- Remove a list of wire tiles from the closed hand. -/
def removeTiles (h : Counts) (akas : List Bool) (xs : List T37) :
    Counts × List Bool :=
  xs.foldl (fun p x => removeTile p.1 p.2 x) (h, akas)

/-- Event classifiers used by the furiten bookkeeping. -/
def isOwnHora (pid : Nat) : Event → Bool
  | .hora a _ => a == pid
  | _ => false

/-- Whether the event is a discard by the tracked seat. -/
def isOwnDahai (pid : Nat) : Event → Bool
  | .dahai a _ _ => a == pid
  | _ => false

/-- Whether the event opens a new kyoku. -/
def isStartKyoku : Event → Bool
  | .start_kyoku .. => true
  | _ => false

/-- Permanent self-discard furiten (spec §4.5 kind 1): some wait tile is
among the seat's own discards. -/
def permanentFuriten (waits disc : List Bool) : Bool :=
  (List.range 34).any fun t => waits.getD t false && disc.getD t false

/-- The spec §3 invariant 6: `at_furiten` is the OR of the three furiten
kinds. -/
def furitenNow (s : MState) : Bool :=
  permanentFuriten s.waits s.discarded_tiles || s.temp_furiten ||
    s.riichi_furiten

/-- Modelled from the spec: §4.5 resolution performed when the next event
arrives.  A pending `to_mark_same_cycle_furiten` converts into
`at_furiten` unless the event is the seat's own ron; a pass on a ronnable
tile (or on a possible tsumo agari, proven by the seat's own discard)
after accepted riichi makes furiten permanent. -/
def preResolve (s : MState) (e : Event) : MState :=
  let ownHora := isOwnHora s.player_id e
  let temp := if s.same_cycle_pending && !ownHora then true else s.temp_furiten
  let rf := s.riichi_furiten ||
    (s.riichi_accepted_self && !ownHora &&
      (s.last_cans.can_ron_agari ||
        (s.last_cans.can_tsumo_agari && isOwnDahai s.player_id e)))
  let s' : MState :=
    { s with temp_furiten := temp, same_cycle_pending := false,
             riichi_furiten := rf, chankan_chance := false }
  { s' with at_furiten := furitenNow s' }

/-- Scoring context for a ron on tile `pai` (discard or chankan). -/
def ronCtx (s : MState) (pai : T37) (chank : Bool) : WinCtx :=
  { isRon := true, winTile := pai.deaka, menzen := s.is_menzen,
    riichi := s.riichi_accepted_self, ippatsu := s.at_ippatsu,
    rinshan := false, chankan := chank,
    lastTile := s.tiles_left == 0, bakaze := s.bakaze, jikaze := s.jikaze,
    chis := s.chis, pons := s.pons, minkans := s.minkans,
    ankans := s.ankans, fullCounts := incC s.tehai pai.deaka }

/-- Scoring context for a tsumo agari on the tile just drawn (already in
the hand counts). -/
def tsumoCtx (s : MState) (win : Tile) : WinCtx :=
  { isRon := false, winTile := win, menzen := s.is_menzen,
    riichi := s.riichi_accepted_self, ippatsu := s.at_ippatsu,
    rinshan := s.at_rinshan, chankan := false,
    lastTile := s.tiles_left == 0, bakaze := s.bakaze, jikaze := s.jikaze,
    chis := s.chis, pons := s.pons, minkans := s.minkans,
    ankans := s.ankans, fullCounts := s.tehai }

/-- Modelled from the spec: the kuikae prohibition (§4.3): for a chi with
run x,x+1,x+2 called on tile y, the seat may not discard y nor the other
sandwich tile.  `kind` is 0 for low, 1 for mid, 2 for high. -/
def chiForbidden (d : Tile) (kind : Nat) : List Tile :=
  match kind with
  | 0 => d :: (if d % 9 + 2 < 8 then [d + 3] else [])
  | 1 => [d]
  | _ => d :: (if 3 ≤ d % 9 then [d - 3] else [])

/-- Modelled from the spec: one chi-direction test of §4.2: the two
remaining run tiles are in hand, and kuikae does not forbid every
resulting discard. -/
def canChiKind (tehai : Counts) (d : Tile) (kind : Nat) : Bool :=
  if 27 ≤ d then false
  else
    let need : List Tile :=
      match kind with
      | 0 => if d % 9 ≤ 6 then [d + 1, d + 2] else []
      | 1 => if 1 ≤ d % 9 && d % 9 ≤ 7 then [d - 1, d + 1] else []
      | _ => if 2 ≤ d % 9 then [d - 2, d - 1] else []
    !need.isEmpty &&
    need.all (fun t => decide (1 ≤ cnt tehai t)) &&
    (let rest := need.foldl decC tehai
     let forb := chiForbidden d kind
     (List.range 34).any fun u =>
       decide (1 ≤ cnt rest u) && !forb.contains u)

/-- Modelled from the spec: `set_can_chi_from_tile` exercised by
`state/test.rs`: recompute the three chi candidate bits for a discard
from kamicha of tile `d`.  Chi is always legal for non-riichi seats
(spec §4.2). -/
def set_can_chi_from_tile (s : MState) (d : Tile) : MState :=
  let ok := !s.riichi_declared_self
  { s with last_cans :=
      { s.last_cans with
        can_chi_low := ok && canChiKind s.tehai d 0,
        can_chi_mid := ok && canChiKind s.tehai d 1,
        can_chi_high := ok && canChiKind s.tehai d 2 } }

/-- Modelled from the spec: `can_riichi` discard existence (§4.2): some
discard leaves the hand at tenpai. -/
def hasNextShantenDiscard (tehai : Counts) (melds : Nat) : Bool :=
  (List.range 34).any fun t =>
    decide (1 ≤ cnt tehai t) && (waitsOf (decC tehai t) melds).any id

/-- Modelled from the spec: the structural effect of the tracked seat's
own draw (§4.3 tsumo): add the tile, consume one wall tile, take the
turn, refresh the wait table. -/
def ownDrawState (s : MState) (pai : T37) : MState :=
  let hand := addTile s.tehai s.akas_in_hand pai
  { s with tehai := hand.1, akas_in_hand := hand.2,
           tiles_left := s.tiles_left - 1, at_turn := 0,
           last_self_tsumo := some pai,
           waits := waitsUpd hand.1 (meldCount s) s.waits }

/-- Modelled from the spec: the candidate bitfield after the tracked
seat's own draw (§4.2): discard, tsumo agari (completion plus a yaku,
with no furiten condition), ankan, kakan and riichi.  `s'` is the state
with the draw already applied. -/
def ownDrawCans (s' : MState) (pai : T37) : ActionCandidate :=
  { can_discard := true
    can_tsumo_agari := isCompleteWith s'.tehai (meldCount s') &&
      hasYakuCtx (tsumoCtx s' pai.deaka)
    can_ankan := (List.range 34).any fun t => cnt s'.tehai t == 4
    can_kakan := s'.pons.any fun t => decide (1 ≤ cnt s'.tehai t)
    can_riichi := s'.is_menzen && !s'.riichi_declared_self &&
      decide ((1000 : Int) ≤ s'.scores.getD 0 0) &&
      decide (4 ≤ s'.tiles_left) &&
      hasNextShantenDiscard s'.tehai (meldCount s') }

/-- Modelled from the spec: the structural effect of one event on the
tracked seat (§4.3), with the candidate bitfield recomputed afterwards
(§4.2).  Derived tables untouched by the event kind are skipped, as the
spec's fixed-order note permits. -/
def applyEvent (s : MState) (e : Event) : MState :=
  match e with
  | .start_kyoku bakaze _kyoku _honba _kyotaku oya scores dora_marker tehais =>
    let own := tehais.getD s.player_id []
    let hand := own.foldl (fun p x => addTile p.1 p.2 x) (zero34, [false, false, false])
    let rel := relSeat s.player_id oya
    { player_id := s.player_id
      tehai := hand.1
      akas_in_hand := hand.2
      dora_indicators := [dora_marker.deaka]
      tiles_left := 70
      scores := (List.range 4).map fun i => scores.getD ((s.player_id + i) % 4) 0
      bakaze := bakaze
      jikaze := 27 + (s.player_id + 4 - oya) % 4
      oya := rel
      at_turn := rel
      is_menzen := true
      waits := waitsOf hand.1 0 }
  | .tsumo actor pai =>
    if actor == s.player_id then
      let s' := ownDrawState s pai
      { s' with last_cans := ownDrawCans s' pai }
    else
      { s with tiles_left := s.tiles_left - 1,
               at_turn := relSeat s.player_id actor, last_cans := {} }
  | .dahai actor pai _tsumogiri =>
    if actor == s.player_id then
      let hand := removeTile s.tehai s.akas_in_hand pai
      let m := meldCount s
      { s with tehai := hand.1, akas_in_hand := hand.2,
               discarded_tiles := s.discarded_tiles.set pai.deaka true,
               waits := waitsUpd hand.1 m s.waits,
               temp_furiten := false, at_ippatsu := false,
               at_rinshan := false, last_self_tsumo := none,
               last_kawa_tile := some pai, last_cans := {} }
    else
      let d := pai.deaka
      let canRon := s.waits.getD d false && !s.at_furiten &&
        hasYakuCtx (ronCtx s pai false)
      let chiOk := (actor + 1) % 4 == s.player_id && !s.riichi_declared_self
      { s with last_kawa_tile := some pai,
               same_cycle_pending := canRon,
               last_cans :=
        { can_ron_agari := canRon
          can_chi_low := chiOk && canChiKind s.tehai d 0
          can_chi_mid := chiOk && canChiKind s.tehai d 1
          can_chi_high := chiOk && canChiKind s.tehai d 2
          can_pon := !s.riichi_declared_self && decide (2 ≤ cnt s.tehai d)
          can_daiminkan := !s.riichi_declared_self &&
            decide (3 ≤ cnt s.tehai d) && s.kans_on_board < 4 } }
  | .chi actor _target pai consumed =>
    if actor == s.player_id then
      let hand := removeTiles s.tehai s.akas_in_hand consumed
      let start := ((pai :: consumed).map T37.deaka).foldr min 34
      { s with tehai := hand.1, akas_in_hand := hand.2,
               chis := s.chis ++ [start],
               meld_tiles := s.meld_tiles ++ pai :: consumed,
               is_menzen := false, at_ippatsu := false,
               waits := waitsUpd hand.1 (meldCount s + 1) s.waits,
               last_cans := { can_discard := true } }
    else
      { s with at_ippatsu := false, last_cans := {} }
  | .pon actor _target pai consumed =>
    if actor == s.player_id then
      let hand := removeTiles s.tehai s.akas_in_hand consumed
      { s with tehai := hand.1, akas_in_hand := hand.2,
               pons := s.pons ++ [pai.deaka],
               meld_tiles := s.meld_tiles ++ pai :: consumed,
               is_menzen := false, at_ippatsu := false,
               waits := waitsUpd hand.1 (meldCount s + 1) s.waits,
               last_cans := { can_discard := true } }
    else
      { s with at_ippatsu := false, last_cans := {} }
  | .daiminkan actor _target pai consumed =>
    let s' := { s with kans_on_board := s.kans_on_board + 1,
                       at_ippatsu := false }
    if actor == s.player_id then
      let hand := removeTiles s.tehai s.akas_in_hand consumed
      { s' with tehai := hand.1, akas_in_hand := hand.2,
                minkans := s.minkans ++ [pai.deaka],
                meld_tiles := s.meld_tiles ++ pai :: consumed,
                is_menzen := false, at_rinshan := true,
                waits := waitsUpd hand.1 (meldCount s + 1) s.waits,
                last_cans := {} }
    else
      { s' with last_cans := {} }
  | .ankan actor consumed =>
    let s' := { s with kans_on_board := s.kans_on_board + 1,
                       at_ippatsu := false }
    if actor == s.player_id then
      let hand := removeTiles s.tehai s.akas_in_hand consumed
      let base := (consumed.getD 0 T37.unknown).deaka
      { s' with tehai := hand.1, akas_in_hand := hand.2,
                ankans := s.ankans ++ [base],
                meld_tiles := s.meld_tiles ++ consumed,
                at_rinshan := true,
                waits := waitsUpd hand.1 (meldCount s + 1) s.waits,
                last_cans := {} }
    else
      { s' with last_cans := {} }
  | .kakan actor pai _consumed =>
    let s' := { s with kans_on_board := s.kans_on_board + 1,
                       at_ippatsu := false }
    let base := pai.deaka
    if actor == s.player_id then
      let hand := removeTile s.tehai s.akas_in_hand pai
      { s' with tehai := hand.1, akas_in_hand := hand.2,
                pons := s.pons.erase base,
                minkans := s.minkans ++ [base],
                meld_tiles := s.meld_tiles ++ [pai],
                at_rinshan := true,
                waits := waitsUpd hand.1 (meldCount s) s.waits,
                last_cans := {} }
    else
      let canRon := s.waits.getD base false && !s.at_furiten &&
        hasYakuCtx (ronCtx s pai true)
      { s' with chankan_chance := true, last_kawa_tile := some pai,
                same_cycle_pending := canRon,
                last_cans := { can_ron_agari := canRon } }
  | .dora dora_marker =>
    { s with dora_indicators := s.dora_indicators ++ [dora_marker.deaka],
             last_cans := {} }
  | .reach actor =>
    if actor == s.player_id then
      { s with riichi_declared_self := true,
               last_cans := { can_discard := true } }
    else
      { s with last_cans := {} }
  | .reach_accepted actor =>
    let rel := relSeat s.player_id actor
    let s' := { s with scores := s.scores.set rel (s.scores.getD rel 0 - 1000) }
    if actor == s.player_id then
      { s' with riichi_accepted_self := true, at_ippatsu := true,
                last_cans := {} }
    else
      { s' with last_cans := {} }
  | .hora _ _ => { s with last_cans := {} }
  | .ryukyoku => { s with last_cans := {} }
  | .end_kyoku => { s with last_cans := {} }
  | .end_game => { s with last_cans := {} }

/-- Recompute the folded `at_furiten` bit after the structural update
(spec §3 invariant 6). -/
def finalize (s : MState) : MState := { s with at_furiten := furitenNow s }

/-- Modelled from the spec: `PlayerState::update` (§4.3): resolve pending
furiten marks, apply the event, refold `at_furiten`. -/
def update (s : MState) (e : Event) : MState := finalize (applyEvent (preResolve s e) e)

/-- Run a list of events. -/
def runEvents (s : MState) : List Event → MState := List.foldl update s

/-- All states visited from `s` while consuming the events, `s` first. -/
def statesFrom (s : MState) : List Event → List MState
  | [] => [s]
  | e :: es => s :: statesFrom (update s e) es

/-- Modelled from the spec: `agari_points` (§4.4): points of the claimed
win, or `none` when no yaku exists.  Ura indicators count only under
accepted riichi; aka and dora extend han but never satisfy the yaku
requirement. -/
def agari_points (s : MState) (isRon : Bool) (ura : List Tile) : Option Point :=
  match (if isRon then s.last_kawa_tile else s.last_self_tsumo) with
  | none => none
  | some w =>
    let ctx := if isRon then ronCtx s w s.chankan_chance else tsumoCtx s w.deaka
    let inds := s.dora_indicators ++ (if s.riichi_accepted_self then ura else [])
    let doraHan :=
      ((List.range 34).map fun t =>
        cnt ctx.fullCounts t * doraFactor inds t).foldr (· + ·) 0 +
      (s.meld_tiles.map fun x => doraFactor inds x.deaka).foldr (· + ·) 0 +
      (s.akas_in_hand.filter id).length +
      (s.meld_tiles.filter T37.isRed).length +
      (if isRon && w.isRed then 1 else 0)
    let cands := (scoreCands ctx).filter fun c => 0 < c.1
    if cands.isEmpty then none
    else
      let b := (cands.map fun c => basePts (c.1 + doraHan) c.2).foldr max 0
      some (pointsFor (s.oya == 0) b)

section TileNames

/-- Man tile ids. -/
def m1 : Tile := 0
/-- 2m. -/
def m2 : Tile := 1
/-- 3m. -/
def m3 : Tile := 2
/-- 4m. -/
def m4 : Tile := 3
/-- 5m. -/
def m5 : Tile := 4
/-- 6m. -/
def m6 : Tile := 5
/-- 7m. -/
def m7 : Tile := 6
/-- 8m. -/
def m8 : Tile := 7
/-- 9m. -/
def m9 : Tile := 8
/-- Pin tile ids. -/
def p1 : Tile := 9
/-- 2p. -/
def p2 : Tile := 10
/-- 3p. -/
def p3 : Tile := 11
/-- 4p. -/
def p4 : Tile := 12
/-- 5p. -/
def p5 : Tile := 13
/-- 6p. -/
def p6 : Tile := 14
/-- 7p. -/
def p7 : Tile := 15
/-- 8p. -/
def p8 : Tile := 16
/-- 9p. -/
def p9 : Tile := 17
/-- Sou tile ids. -/
def s1 : Tile := 18
/-- 2s. -/
def s2 : Tile := 19
/-- 3s. -/
def s3 : Tile := 20
/-- 4s. -/
def s4 : Tile := 21
/-- 5s. -/
def s5 : Tile := 22
/-- 6s. -/
def s6 : Tile := 23
/-- 7s. -/
def s7 : Tile := 24
/-- 8s. -/
def s8 : Tile := 25
/-- 9s. -/
def s9 : Tile := 26
/-- East wind. -/
def zE : Tile := 27
/-- South wind. -/
def zS : Tile := 28
/-- West wind. -/
def zW : Tile := 29
/-- North wind. -/
def zN : Tile := 30
/-- White dragon. -/
def zP : Tile := 31
/-- Green dragon. -/
def zF : Tile := 32
/-- Red dragon. -/
def zC : Tile := 33

/-- Plain wire tile. -/
def pt (b : Tile) : T37 := T37.tile b false

/-- Red-five wire tile. -/
def rt (b : Tile) : T37 := T37.tile b true

/-- Unknown wire tile. -/
def uk : T37 := T37.unknown

end TileNames

/-- Build a count vector from a list of base tile ids (the `hand` helper
of the test suite). -/
def hand (ts : List Tile) : Counts := ts.foldl incC zero34

/-- Modelled from the spec: `get_rank` (§8 scenario 6): the argument is
rotated so index 0 is the tracked seat; the 0-based rank counts the
absolute seats that strictly beat the tracked seat or tie with it from an
earlier absolute seat (oya/earlier seat wins the tie). -/
def get_rank (player_id : Nat) (scores : List Int) : Nat :=
  (List.range 4).countP fun j =>
    let sj := scores.getD ((j + 4 - player_id) % 4) 0
    let s0 := scores.getD 0 0
    decide (s0 < sj) || (sj == s0 && decide (j < player_id))

/-- Segment of the `double_chankan_ron` event log of `state/test.rs`. -/
def c4Loga : List Event := [
  .start_kyoku zS 2 0 0 1 [44400, 1600, 25700, 28300] (pt p2)
    [[pt m1, pt m5, pt m9, pt m9, pt m9, pt p3, pt p9, pt s8, pt s9, pt zW, pt zW, pt zN, pt zC],
     [pt m7, pt m8, pt p3, pt p6, pt p8, pt s1, pt s1, pt s3, pt s6, pt s9, pt zE, pt zF, pt zC],
     [pt m3, pt m9, pt p2, pt p5, pt p8, pt s1, pt s2, pt s5, pt s6, pt s7, pt zS, pt zF, pt zC],
     [pt m2, pt m2, pt m5, pt m5, pt m8, pt p1, pt p1, pt p7, pt p8, pt s3, pt s5, pt s8, pt s9]],
  .tsumo 1 (pt zP),
  .dahai 1 (pt zF) false,
  .tsumo 2 (pt m3),
  .dahai 2 (pt zF) false,
  .tsumo 3 (pt m6),
  .dahai 3 (pt s9) false,
  .tsumo 0 (pt s1),
  .dahai 0 (pt s1) true,
  .tsumo 1 (pt p9),
  .dahai 1 (pt zC) false,
  .tsumo 2 (pt p9),
  .dahai 2 (pt zC) false,
  .tsumo 3 (pt s7),
  .dahai 3 (pt p1) false,
  .tsumo 0 (pt p7),
  .dahai 0 (pt zC) false,
  .tsumo 1 (pt m5),
  .dahai 1 (pt zP) false,
  .tsumo 2 (pt s8),
  .dahai 2 (pt m9) false,
  .tsumo 3 (pt m7),
  .dahai 3 (pt p1) false,
  .tsumo 0 (pt zW),
  .dahai 0 (pt m1) false,
  .tsumo 1 (pt zP),
  .dahai 1 (pt zP) true,
  .tsumo 2 (pt m4),
  .dahai 2 (pt zS) false,
  .tsumo 3 (pt m8)]

/-- Segment of the `double_chankan_ron` event log of `state/test.rs`. -/
def c4Logb : List Event := [
  .dahai 3 (pt m8) true,
  .tsumo 0 (pt p8),
  .dahai 0 (pt zN) false,
  .tsumo 1 (pt s5),
  .dahai 1 (pt zE) false,
  .tsumo 2 (pt zE),
  .dahai 2 (pt zE) true,
  .tsumo 3 (pt p4),
  .dahai 3 (pt p4) true,
  .tsumo 0 (pt m1),
  .dahai 0 (pt m5) false,
  .pon 3 0 (pt m5) [pt m5, pt m5],
  .dahai 3 (pt s8) false,
  .tsumo 0 (pt s4),
  .dahai 0 (pt s4) true,
  .tsumo 1 (pt zN),
  .dahai 1 (pt zN) true,
  .tsumo 2 (pt p9),
  .dahai 2 (pt p8) false,
  .tsumo 3 (pt zC),
  .dahai 3 (pt zC) true,
  .tsumo 0 (pt s4),
  .dahai 0 (pt s4) true,
  .tsumo 1 (pt m1),
  .dahai 1 (pt s9) false,
  .tsumo 2 (pt p4),
  .dahai 2 (pt p2) false,
  .tsumo 3 (pt zP),
  .dahai 3 (pt zP) true,
  .tsumo 0 (pt m3)]

/-- Segment of the `double_chankan_ron` event log of `state/test.rs`. -/
def c4Logc : List Event := [
  .dahai 0 (pt p3) false,
  .tsumo 1 (pt s6),
  .dahai 1 (pt p9) false,
  .tsumo 2 (pt s8),
  .dahai 2 (pt m3) false,
  .tsumo 3 (pt m4),
  .dahai 3 (pt m4) true,
  .tsumo 0 (pt zP),
  .dahai 0 (pt zP) true,
  .tsumo 1 (pt zE),
  .dahai 1 (pt zE) true,
  .tsumo 2 (pt s7),
  .dahai 2 (pt s2) false,
  .tsumo 3 (pt zF),
  .dahai 3 (pt zF) true,
  .tsumo 0 (pt m4),
  .dahai 0 (pt m4) true,
  .tsumo 1 (pt m2),
  .dahai 1 (pt m5) false,
  .tsumo 2 (pt p7),
  .dahai 2 (pt p7) true,
  .tsumo 3 (pt s2),
  .dahai 3 (pt s2) true,
  .tsumo 0 (pt p4),
  .dahai 0 (pt p4) true,
  .tsumo 1 (pt p5),
  .dahai 1 (pt p8) false,
  .tsumo 2 (pt s2),
  .dahai 2 (pt s2) true,
  .tsumo 3 (pt zF)]

/-- Segment of the `double_chankan_ron` event log of `state/test.rs`. -/
def c4Logd : List Event := [
  .dahai 3 (pt zF) true,
  .tsumo 0 (pt p6),
  .dahai 0 (pt p6) true,
  .tsumo 1 (pt m7),
  .dahai 1 (pt p3) false,
  .tsumo 2 (pt p1),
  .dahai 2 (pt p1) true,
  .tsumo 3 (pt s9),
  .dahai 3 (pt s9) true,
  .tsumo 0 (pt zS),
  .dahai 0 (pt zS) true,
  .tsumo 1 (pt s7),
  .dahai 1 (pt s6) false,
  .chi 2 1 (pt s6) [pt s5, pt s7],
  .dahai 2 (pt s1) false,
  .pon 1 2 (pt s1) [pt s1, pt s1],
  .dahai 1 (pt s3) false,
  .tsumo 2 (pt p2),
  .dahai 2 (pt p2) true,
  .tsumo 3 (pt p3),
  .dahai 3 (pt p3) true,
  .tsumo 0 (pt s6),
  .dahai 0 (pt s6) true,
  .tsumo 1 (pt p6),
  .dahai 1 (pt p6) true,
  .chi 2 1 (pt p6) [pt p4, pt p5],
  .dahai 2 (pt s8) false,
  .tsumo 3 (pt m6),
  .dahai 3 (pt s3) false,
  .tsumo 0 (pt m7)]

/-- Segment of the `double_chankan_ron` event log of `state/test.rs`. -/
def c4Loge : List Event := [
  .dahai 0 (pt s8) false,
  .tsumo 1 (pt p6),
  .dahai 1 (pt p6) true,
  .tsumo 2 (pt s5),
  .dahai 2 (pt s8) false,
  .tsumo 3 (pt p1),
  .dahai 3 (pt p1) true,
  .tsumo 0 (pt s2),
  .dahai 0 (pt s9) false,
  .tsumo 1 (pt m1),
  .dahai 1 (pt m2) false,
  .pon 3 1 (pt m2) [pt m2, pt m2],
  .dahai 3 (pt m6) false,
  .tsumo 0 (pt zW),
  .dahai 0 (pt s2) false,
  .tsumo 1 (pt zN),
  .dahai 1 (pt zN) true,
  .tsumo 2 (pt p5),
  .dahai 2 (pt p5) true,
  .tsumo 3 (pt m3),
  .dahai 3 (pt m3) true,
  .tsumo 0 (pt m6),
  .ankan 0 [pt zW, pt zW, pt zW, pt zW],
  .dora (pt p7),
  .tsumo 0 (pt m8),
  .dahai 0 (pt m6) false,
  .chi 1 0 (pt m6) [pt m7, pt m8],
  .dahai 1 (pt m7) false,
  .tsumo 2 (pt s3),
  .dahai 2 (pt s3) true]

/-- Segment of the `double_chankan_ron` event log of `state/test.rs`. -/
def c4Logf : List Event := [
  .tsumo 3 (pt m2)]

/-- The full `double_chankan_ron` event log of `state/test.rs` (the part
shared by both branches of the test). -/
def c4Log : List Event := c4Loga ++ c4Logb ++ c4Logc ++ c4Logd ++ c4Loge ++ c4Logf


/-- The `furiten` test log of `state/test.rs`: start of the kyoku and the
first draw (hand `23406m 456789p 58s`, dora indicator 3p). -/
def fuLogA : List Event :=
  [.start_kyoku zE 1 0 0 0 [25000, 25000, 25000, 25000] (pt p3)
    [[pt m2, pt m3, pt m4, rt m5, pt m6, pt p4, pt p5, pt p6, pt p7, pt p8,
      pt p9, pt s5, pt s8],
     List.replicate 13 uk, List.replicate 13 uk, List.replicate 13 uk],
   .tsumo 0 (pt s8)]

/-- Continuation: discard 5s, reaching tenpai on 1m/4m/7m. -/
def fuLogB : List Event := fuLogA ++ [.dahai 0 (pt s5) false]

/-- Continuation: seat 1 draws and discards 1m, a ronnable tile. -/
def fuLogC : List Event := fuLogB ++ [.tsumo 1 uk, .dahai 1 (pt m1) false]

/-- Continuation: seat 2 draws, proving the ron was declined. -/
def fuLogD : List Event := fuLogC ++ [.tsumo 2 uk]

/-- Continuation: seat 2 and seat 3 discard; seat 3 discards 1m again. -/
def fuLogE : List Event :=
  fuLogD ++ [.dahai 2 (pt s1) true, .tsumo 3 uk, .dahai 3 (pt m1) false]

/-- Continuation: the tracked seat draws 3s, the start of its own next
turn. -/
def fuLogF : List Event := fuLogE ++ [.tsumo 0 (pt s3)]

/-- Continuation: the tracked seat completes the turn by discarding 3s. -/
def fuLogG : List Event := fuLogF ++ [.dahai 0 (pt s3) true]

/-- Continuation: two harmless discards, then seat 3 discards 1m once
more, ronnable again. -/
def fuLogH : List Event :=
  fuLogG ++ [.tsumo 1 uk, .dahai 1 (pt zP) true, .tsumo 2 uk,
    .dahai 2 (pt zC) true, .tsumo 3 uk, .dahai 3 (pt m1) false]

/-- Continuation: draw N and declare riichi; the declaration discard is
accepted, then the other seats discard 9m. -/
def fuLogJ : List Event :=
  fuLogH ++ [.tsumo 0 (pt zN), .reach 0, .dahai 0 (pt zN) true,
    .reach_accepted 0, .tsumo 1 uk, .dahai 1 (pt m9) true, .tsumo 2 uk,
    .dahai 2 (pt m9) true, .tsumo 3 uk, .dahai 3 (pt m9) true]

/-- Continuation: the riichi seat draws its winning tile 1m. -/
def fuLogK : List Event := fuLogJ ++ [.tsumo 0 (pt m1)]

/-- Continuation: the seat declines the tsumo and discards the 1m. -/
def fuLogL : List Event := fuLogK ++ [.dahai 0 (pt m1) true]

/-- Continuation: two 4s discards, then seat 3 discards the wait tile 7m. -/
def fuLogM : List Event :=
  fuLogL ++ [.tsumo 1 uk, .dahai 1 (pt s4) true, .tsumo 2 uk,
    .dahai 2 (pt s4) true, .tsumo 3 uk, .dahai 3 (pt m7) true]

/-- Continuation: an own tsumogiri turn with 8m. -/
def fuLogN : List Event := fuLogM ++ [.tsumo 0 (pt m8), .dahai 0 (pt m8) true]

/-- Continuation: seat 2 discards the wait tile 4m. -/
def fuLogO : List Event :=
  fuLogN ++ [.tsumo 1 uk, .dahai 1 (pt zE) true, .tsumo 2 uk,
    .dahai 2 (pt m4) true]

/-- Continuation: seat 3's harmless turn completes the cycle. -/
def fuLogP : List Event := fuLogO ++ [.tsumo 3 uk, .dahai 3 (pt zE) true]

/-- Continuation: the riichi seat draws the wait tile 4m while furiten. -/
def fuLogQ : List Event := fuLogP ++ [.tsumo 0 (pt m4)]

/-- The `dora_count_after_kan` test log of `state/test.rs` up to the first
checkpoint: hand `1111s 123456p 112z`, dora indicator N, draw 8s. -/
def dkLogA : List Event :=
  [.start_kyoku zE 1 0 0 0 [25000, 25000, 25000, 25000] (pt zN)
    [[pt s1, pt s1, pt s1, pt s1, pt p1, pt p2, pt p3, pt p4, pt p5, pt p6,
      pt zE, pt zE, pt zS],
     List.replicate 13 uk, List.replicate 13 uk, List.replicate 13 uk],
   .tsumo 0 (pt s8)]

/-- Continuation: ankan of 1s, kan dora indicator 9s revealed, draw of the
red 5p. -/
def dkLogB : List Event :=
  dkLogA ++ [.ankan 0 [pt s1, pt s1, pt s1, pt s1], .dora (pt s9),
    .tsumo 0 (rt p5)]

/-- Continuation: discard of E (a dora only under the first indicator). -/
def dkLogC : List Event := dkLogB ++ [.dahai 0 (pt zE) true]

/-- A fresh tracked state for seat 0. -/
def init0 : MState := { player_id := 0 }

/-- A fresh tracked state for seat 2. -/
def init2 : MState := { player_id := 2 }

/-- The state of seat 2 at the end of the shared `double_chankan_ron`
log, tenpai on 2m/5m. -/
def c4base : MState := runEvents init2 c4Log

/-- The state after seat 3 kakans 2m (the chankan branch). -/
def c4kakan : MState :=
  update c4base (.kakan 3 (pt m2) [pt m2, pt m2, pt m2])

/-- The state after seat 3 instead merely discards 2m. -/
def c4dahai : MState := update c4base (.dahai 3 (pt m2) true)


/-- The `PlayerState` struct of `src/libriichi/src/state/player_state.rs`
with the field defaults produced by its `#[derivative(Default)]` derive:
annotated arrays are all-zero / all-false, numeric fields and `i8
shanten` default to 0, booleans to false, collections to empty, options
to `None`.  The two `Tile`-typed wind fields are omitted because the
`Tile` crate (and hence its `Default`) is not part of the source drop. -/
structure PlayerState where
  player_id : Nat := 0
  tehai : List Nat := List.replicate 34 0
  waits : List Bool := List.replicate 34 false
  dora_factor : List Nat := List.replicate 34 0
  tiles_seen : List Nat := List.replicate 34 0
  keep_shanten_discards : List Bool := List.replicate 34 false
  next_shanten_discards : List Bool := List.replicate 34 false
  forbidden_tiles : List Bool := List.replicate 34 false
  discarded_tiles : List Bool := List.replicate 34 false
  kyoku : Nat := 0
  honba : Nat := 0
  kyotaku : Nat := 0
  scores : List Int := List.replicate 4 0
  rank : Nat := 0
  oya : Nat := 0
  is_all_last : Bool := false
  dora_indicators : List Tile := []
  kawa_overview : List (List T37) := [[], [], [], []]
  fuuro_overview : List (List (List T37)) := [[], [], [], []]
  ankan_overview : List (List Tile) := [[], [], [], []]
  riichi_declared : List Bool := List.replicate 4 false
  riichi_accepted : List Bool := List.replicate 4 false
  at_turn : Nat := 0
  tiles_left : Nat := 0
  intermediate_kan : List Tile := []
  intermediate_chi_pon : Option Unit := none
  shanten : Int := 0
  last_self_tsumo : Option T37 := none
  last_kawa_tile : Option T37 := none
  last_cans : ActionCandidate := {}
  ankan_candidates : List Tile := []
  kakan_candidates : List Tile := []
  chankan_chance : Option Unit := none
  can_w_riichi : Bool := false
  is_w_riichi : Bool := false
  at_rinshan : Bool := false
  at_ippatsu : Bool := false
  at_furiten : Bool := false
  to_mark_same_cycle_furiten : Option Unit := none
  kans_on_board : Nat := 0
  is_menzen : Bool := false
  chis : List Nat := []
  pons : List Nat := []
  minkans : List Nat := []
  ankans : List Nat := []
  doras_owned : List Nat := List.replicate 4 0
  doras_seen : Nat := 0
  akas_in_hand : List Bool := List.replicate 3 false
  tehai_len_div3 : Nat := 0
  has_next_shanten_discard : Bool := false
deriving DecidableEq

/-- `PlayerState::new` (`player_state.rs` lines 136-145): asserts
`player_id < 4` (the panic is modelled as `none`), otherwise returns the
default struct with `player_id` set. -/
def PlayerState.new (player_id : Nat) : Option PlayerState :=
  if player_id < 4 then some { player_id := player_id } else none

/-- One step of the glob iteration of `validate_logs.rs` `main`: either an
I/O error raised while walking the glob, or a concrete path. -/
inductive PathEntry (ε π : Type) where
  | ioErr (e : ε)
  | path (p : π)

/-- The `try_for_each` body of `validate_logs.rs` `main` over the glob
entries: a glob iteration error propagates (`let path = path?`), while a
failed `process_path` is only printed and the loop continues
(`anyhow::Ok(())`).  Returns the printed errors in order. -/
def processAll {ε π : Type} (process : π → Except ε Unit) :
    List (PathEntry ε π) → Except ε (List ε)
  | [] => .ok []
  | .ioErr e :: _ => .error e
  | .path p :: rest =>
    match process p with
    | .error pe => (processAll process rest).map (pe :: ·)
    | .ok _ => processAll process rest

/-- `validate_logs.rs` `main`: a missing directory argument is a usage
error; either glob pattern may fail; then the entries of both globs are
processed with per-log failures swallowed.  The returned list is what was
printed for failed logs. -/
def validateLogsMain {δ ε π : Type} (usage : ε) (arg : Option δ)
    (globJson globGz : δ → Except ε (List (PathEntry ε π)))
    (process : π → Except ε Unit) : Except ε (List ε) :=
  match arg with
  | none => .error usage
  | some d =>
    match globJson d with
    | .error e => .error e
    | .ok l1 =>
      match globGz d with
      | .error e => .error e
      | .ok l2 => processAll process (l1 ++ l2)

/-- The per-log errors that `main` prints: one for each path whose
processing fails. -/
def perLogErrors {ε π : Type} (process : π → Except ε Unit) :
    List (PathEntry ε π) → List ε
  | [] => []
  | .ioErr _ :: rest => perLogErrors process rest
  | .path p :: rest =>
    match process p with
    | .error pe => pe :: perLogErrors process rest
    | .ok _ => perLogErrors process rest


/-! Claim theorems. -/

/-- C3 counterexample: a freshly constructed `PlayerState` has
`shanten = 0`, not 8: the `shanten` field of `player_state.rs` carries no
`derivative(Default(value = ...))` annotation, so it takes the `i8`
default. -/
theorem fresh_state_shanten_not_eight :
    (PlayerState.new 0).map PlayerState.shanten = some 0 ∧
    ¬(PlayerState.new 0).map PlayerState.shanten = some 8 := by
  decide

/-- C3 (amended): a freshly constructed `PlayerState` has every count
array zero, every flag false, and its `shanten` field equal to 0. -/
theorem fresh_state_defaults :
    ∀ pid : Nat, pid < 4 →
      PlayerState.new pid = some { player_id := pid } ∧
      ∀ s, PlayerState.new pid = some s →
        s.tehai = List.replicate 34 0 ∧
        s.dora_factor = List.replicate 34 0 ∧
        s.tiles_seen = List.replicate 34 0 ∧
        s.doras_owned = List.replicate 4 0 ∧
        s.waits = List.replicate 34 false ∧
        s.discarded_tiles = List.replicate 34 false ∧
        s.riichi_declared = List.replicate 4 false ∧
        s.riichi_accepted = List.replicate 4 false ∧
        s.at_furiten = false ∧ s.at_ippatsu = false ∧
        s.at_rinshan = false ∧ s.is_menzen = false ∧
        s.is_all_last = false ∧ s.can_w_riichi = false ∧
        s.is_w_riichi = false ∧ s.has_next_shanten_discard = false ∧
        s.shanten = 0 := by
  intro pid h
  refine ⟨by simp [PlayerState.new, h], ?_⟩
  intro s hs
  simp [PlayerState.new, h] at hs
  subst hs
  exact ⟨rfl, rfl, rfl, rfl, rfl, rfl, rfl, rfl, rfl, rfl, rfl, rfl, rfl,
    rfl, rfl, rfl, rfl⟩

/-- C3 witness: the amended statement instantiated at seat 0. -/
theorem fresh_state_defaults_witness :
    (0 : Nat) < 4 ∧
      (PlayerState.new 0 = some { player_id := 0 } ∧
        ∀ s, PlayerState.new 0 = some s →
          s.tehai = List.replicate 34 0 ∧
          s.dora_factor = List.replicate 34 0 ∧
          s.tiles_seen = List.replicate 34 0 ∧
          s.doras_owned = List.replicate 4 0 ∧
          s.waits = List.replicate 34 false ∧
          s.discarded_tiles = List.replicate 34 false ∧
          s.riichi_declared = List.replicate 4 false ∧
          s.riichi_accepted = List.replicate 4 false ∧
          s.at_furiten = false ∧ s.at_ippatsu = false ∧
          s.at_rinshan = false ∧ s.is_menzen = false ∧
          s.is_all_last = false ∧ s.can_w_riichi = false ∧
          s.is_w_riichi = false ∧ s.has_next_shanten_discard = false ∧
          s.shanten = 0) :=
  ⟨by decide, fresh_state_defaults 0 (by decide)⟩

/-- C10: `PlayerState::new` rejects exactly the seat ids 4 and above (the
assert panic), and for ids 0..3 returns the default struct with only
`player_id` set. -/
theorem new_player_state_spec :
    ∀ pid : Nat, pid < 256 →
      ((PlayerState.new pid = none ↔ 4 ≤ pid) ∧
        (pid < 4 → PlayerState.new pid = some { player_id := pid })) := by
  intro pid _
  constructor
  · by_cases h : pid < 4
    · simp only [PlayerState.new, if_pos h]
      constructor
      · intro hc
        cases hc
      · intro hc
        omega
    · simp only [PlayerState.new, if_neg h]
      constructor
      · intro _
        omega
      · intro _
        trivial
  · intro h
    simp [PlayerState.new, h]

/-- C10 witness: the specification instantiated at seat 2 (in range). -/
theorem new_player_state_spec_witness :
    (2 : Nat) < 256 ∧
      ((PlayerState.new 2 = none ↔ 4 ≤ 2) ∧
        (2 < 4 → PlayerState.new 2 = some { player_id := 2 })) :=
  ⟨by decide, new_player_state_spec 2 (by decide)⟩

/-- C7: the four rank fixtures of the spec §8 scenario 6, with ties
resolved in favor of the earlier absolute seat. -/
theorem get_rank_fixtures :
    get_rank 0 [20000, 25000, 25000, 30000] = 3 ∧
    get_rank 3 [25000, 25000, 25000, 25000] = 3 ∧
    get_rank 1 [32000, 32000, 18000, 18000] = 0 ∧
    get_rank 2 [32000, 18000, 18000, 32000] = 1 := by
  decide

/-- C5: with only 4s 5s 5s 6s in hand and a 5s discarded from kamicha, no
chi direction is offered even though the mid-chi tiles 4s and 6s are both
present: every discard remaining after the call would be forbidden by
kuikae. -/
theorem kuikae_disables_all_chi :
    cnt (hand [s4, s5, s5, s6]) s4 = 1 ∧
    cnt (hand [s4, s5, s5, s6]) s6 = 1 ∧
    (set_can_chi_from_tile { player_id := 0, tehai := hand [s4, s5, s5, s6] }
        s5).last_cans.can_chi_low = false ∧
    (set_can_chi_from_tile { player_id := 0, tehai := hand [s4, s5, s5, s6] }
        s5).last_cans.can_chi_mid = false ∧
    (set_can_chi_from_tile { player_id := 0, tehai := hand [s4, s5, s5, s6] }
        s5).last_cans.can_chi_high = false := by
  decide

/-- C8: in the kan-dora fixture, the tracked seat owns 7 dora after the
ankan-revealed indicator and the red-5p draw, and discarding E (a dora
only under the new indicator chain: the original indicator N makes E a
dora) lowers the count by exactly 1, to 6. -/
theorem dora_recount_on_kan :
    doras_owned0 (runEvents init0 dkLogB) = 7 ∧
    doras_owned0 (runEvents init0 dkLogC) = 6 := by
  decide


set_option maxRecDepth 1000000 in
/-- C4: in the `double_chankan_ron` fixture, seat 2 is tenpai on 2m and
not furiten; seat 3's kakan of 2m opens a chankan ron worth exactly 1000
points (one yaku — chankan — at 30 fu), whereas a plain discard of the
same 2m offers no ron because the open hand has no yaku then. -/
theorem chankan_ron_scenario :
    c4base.waits.getD m2 false = true ∧
    c4base.at_furiten = false ∧
    c4kakan.last_cans.can_ron_agari = true ∧
    (agari_points c4kakan true []).map Point.ron = some 1000 ∧
    c4dahai.last_cans.can_ron_agari = false := by
  decide

/-- Helper for C9: when every glob entry is a concrete path, the loop
returns success and reports exactly the per-log failures. -/
theorem processAll_ok_of_paths {ε π : Type} (process : π → Except ε Unit) :
    ∀ l : List (PathEntry ε π),
      (∀ x ∈ l, ∃ p, x = PathEntry.path p) →
      processAll process l = .ok (perLogErrors process l) := by
  intro l
  induction l with
  | nil => intro _; rfl
  | cons x rest ih =>
    intro h
    obtain ⟨p, hp⟩ := h x (by simp)
    subst hp
    have hrest := ih fun y hy => h y (by simp [hy])
    cases hproc : process p with
    | error pe => simp [processAll, perLogErrors, hproc, hrest, Except.map]
    | ok u => simpa [processAll, perLogErrors, hproc] using hrest

/-- Helper for C9: an erroring loop always traces back to a glob
iteration (I/O) entry. -/
theorem processAll_error_mem {ε π : Type} (process : π → Except ε Unit) :
    ∀ (l : List (PathEntry ε π)) (e : ε),
      processAll process l = .error e → PathEntry.ioErr e ∈ l := by
  intro l
  induction l with
  | nil => intro e h; cases h
  | cons x rest ih =>
    intro e h
    cases x with
    | ioErr e' =>
      simp only [processAll] at h
      cases h
      simp
    | path p =>
      simp only [processAll] at h
      cases hproc : process p with
      | error pe =>
        rw [hproc] at h
        cases hrest : processAll process rest with
        | error e2 =>
          rw [hrest] at h
          cases h
          exact List.mem_cons_of_mem _ (ih e hrest)
        | ok l2 => rw [hrest] at h; cases h
      | ok u =>
        rw [hproc] at h
        exact List.mem_cons_of_mem _ (ih e h)

/-- C9: per-log validation failures never fail the run: with the
directory argument present and both globs succeeding on concrete paths,
`main` returns success and merely reports the failed logs; and whenever
`main` does exit non-zero, the error is a glob pattern error or a glob
iteration (I/O) error. -/
theorem validator_error_handling :
    (∀ (δ ε π : Type) (usage : ε) (d : δ)
       (gj gg : δ → Except ε (List (PathEntry ε π)))
       (proc : π → Except ε Unit) (l1 l2 : List (PathEntry ε π)),
       gj d = .ok l1 → gg d = .ok l2 →
       (∀ x ∈ l1 ++ l2, ∃ p, x = PathEntry.path p) →
       validateLogsMain usage (some d) gj gg proc =
         .ok (perLogErrors proc (l1 ++ l2))) ∧
    (∀ (δ ε π : Type) (usage : ε) (d : δ)
       (gj gg : δ → Except ε (List (PathEntry ε π)))
       (proc : π → Except ε Unit) (e : ε),
       validateLogsMain usage (some d) gj gg proc = .error e →
       gj d = .error e ∨ ∃ l1, gj d = .ok l1 ∧
         (gg d = .error e ∨ ∃ l2, gg d = .ok l2 ∧
           PathEntry.ioErr e ∈ l1 ++ l2)) := by
  constructor
  · intro δ ε π usage d gj gg proc l1 l2 h1 h2 hpaths
    simp only [validateLogsMain, h1, h2]
    exact processAll_ok_of_paths proc (l1 ++ l2) hpaths
  · intro δ ε π usage d gj gg proc e h
    simp only [validateLogsMain] at h
    cases h1 : gj d with
    | error e1 =>
      rw [h1] at h
      cases h
      exact Or.inl rfl
    | ok l1 =>
      rw [h1] at h
      refine Or.inr ⟨l1, rfl, ?_⟩
      cases h2 : gg d with
      | error e2 =>
        rw [h2] at h
        cases h
        exact Or.inl rfl
      | ok l2 =>
        rw [h2] at h
        exact Or.inr ⟨l2, rfl, processAll_error_mem proc (l1 ++ l2) e h⟩

/-- Concrete glob fixture for the C9 witness: two paths, no iteration
errors. -/
def globFixture : Nat → Except Nat (List (PathEntry Nat Nat)) :=
  fun _ => .ok [PathEntry.path 1, PathEntry.path 2]

/-- Concrete empty glob fixture for the C9 witness. -/
def globFixtureEmpty : Nat → Except Nat (List (PathEntry Nat Nat)) :=
  fun _ => .ok []

/-- Concrete per-log processor for the C9 witness: log 1 fails
validation with error 7, log 2 validates. -/
def processFixture : Nat → Except Nat Unit :=
  fun p => if p == 1 then .error 7 else .ok ()

/-- C9 witness: the run with one failing log still returns success and
prints exactly that error. -/
theorem validator_error_handling_witness :
    globFixture 0 = .ok [PathEntry.path 1, PathEntry.path 2] ∧
    globFixtureEmpty 0 = .ok [] ∧
    validateLogsMain 99 (some 0) globFixture globFixtureEmpty
      processFixture = .ok [7] := by
  refine ⟨rfl, rfl, ?_⟩
  have h := validator_error_handling.1 Nat Nat Nat 99 0 globFixture
    globFixtureEmpty processFixture
    [PathEntry.path 1, PathEntry.path 2] [] rfl rfl ?_
  · simpa [perLogErrors, processFixture] using h
  · intro x hx
    simp only [List.append_nil, List.mem_cons, List.mem_singleton] at hx
    rcases hx with h1 | h1 | h1
    · exact ⟨1, h1⟩
    · exact ⟨2, h1⟩
    · cases h1


/-- Projection: `preResolve` never changes the tracked seat id. -/
lemma preResolve_player_id (s : MState) (e : Event) :
    (preResolve s e).player_id = s.player_id := rfl

/-- Projection: `finalize` never changes the candidate bitfield. -/
lemma finalize_last_cans (s : MState) : (finalize s).last_cans = s.last_cans := rfl

/-- Projection: `finalize` refolds `at_furiten`. -/
lemma finalize_at_furiten (s : MState) : (finalize s).at_furiten = furitenNow s := rfl

/-- A pending same-cycle mark converts into the temporary-furiten flag on
any event other than the seat's own ron. -/
lemma preResolve_temp_of_pending (s : MState) (e : Event)
    (hp : s.same_cycle_pending = true) (hh : isOwnHora s.player_id e = false) :
    (preResolve s e).temp_furiten = true := by
  simp [preResolve, hp, hh]

/-- C6: tsumo agari is offered regardless of furiten: whenever the
tracked seat's own draw completes the hand and at least one yaku exists,
`can_tsumo_agari` is set even though `at_furiten` is true at that moment
— no furiten condition appears in the tsumo candidate. -/
theorem tsumo_agari_regardless_of_furiten :
    ∀ (s : MState) (pai : T37),
      s.at_furiten = true →
      isCompleteWith (ownDrawState (preResolve s (.tsumo s.player_id pai)) pai).tehai
        (meldCount (ownDrawState (preResolve s (.tsumo s.player_id pai)) pai)) = true →
      hasYakuCtx (tsumoCtx (ownDrawState (preResolve s (.tsumo s.player_id pai)) pai)
        pai.deaka) = true →
      (update s (.tsumo s.player_id pai)).last_cans.can_tsumo_agari = true := by
  intro s pai _hf hc hy
  simp only [update, finalize_last_cans, applyEvent, preResolve_player_id,
    beq_self_eq_true, if_true]
  simp only [ownDrawCans, hc, hy, Bool.and_self]

set_option maxRecDepth 1000000 in
/-- C6 witness: the riichi seat of the furiten fixture draws its wait
tile 4m while furiten, and tsumo agari is offered (the assertion of
`state/test.rs` line 427). -/
theorem tsumo_agari_regardless_of_furiten_witness :
    ((runEvents init0 fuLogP).at_furiten = true ∧
      isCompleteWith
        (ownDrawState (preResolve (runEvents init0 fuLogP)
          (.tsumo (runEvents init0 fuLogP).player_id (pt m4))) (pt m4)).tehai
        (meldCount (ownDrawState (preResolve (runEvents init0 fuLogP)
          (.tsumo (runEvents init0 fuLogP).player_id (pt m4))) (pt m4))) = true ∧
      hasYakuCtx (tsumoCtx (ownDrawState (preResolve (runEvents init0 fuLogP)
          (.tsumo (runEvents init0 fuLogP).player_id (pt m4))) (pt m4))
        (pt m4).deaka) = true) ∧
    (update (runEvents init0 fuLogP)
      (.tsumo (runEvents init0 fuLogP).player_id (pt m4))).last_cans.can_tsumo_agari
      = true :=
  ⟨⟨by decide, by decide, by decide⟩,
    tsumo_agari_regardless_of_furiten (runEvents init0 fuLogP) (pt m4)
      (by decide) (by decide) (by decide)⟩

set_option maxRecDepth 1000000 in
/-- C1 counterexample: in the furiten fixture the tracked seat could have
ronned the 1m (`can_ron_agari` set, mark pending), declined, and
`at_furiten` became true — but at the start of the seat's own next turn
(right after its draw of 3s, `fuLogF`) the flag is still true; it is only
cleared once the seat's discard completes the turn (`fuLogG`).  This
refutes "cleared at the start of the seat's own next turn". -/
theorem temp_furiten_not_cleared_at_turn_start :
    (runEvents init0 fuLogC).last_cans.can_ron_agari = true ∧
    (runEvents init0 fuLogC).same_cycle_pending = true ∧
    (runEvents init0 fuLogD).at_furiten = true ∧
    (runEvents init0 fuLogF).at_furiten = true ∧
    (runEvents init0 fuLogG).at_furiten = false := by
  decide

/-- C1 (amended) part 1: a pending missed-ron mark makes `at_furiten`
true on the next event (any event except the seat's own ron, own discard
or a new kyoku proves the decline). -/
lemma same_cycle_mark_converts :
    ∀ (s : MState) (e : Event),
      s.same_cycle_pending = true →
      isOwnHora s.player_id e = false →
      isOwnDahai s.player_id e = false →
      isStartKyoku e = false →
      (update s e).at_furiten = true := by
  intro s e hp hh hd _hs
  have htemp := preResolve_temp_of_pending s e hp hh
  rw [update, finalize_at_furiten]
  generalize hq : preResolve s e = q at htemp
  cases e with
  | start_kyoku a b c d o sc dm th => simp [isStartKyoku] at _hs
  | tsumo actor pai =>
    by_cases ha : actor == q.player_id
    · simp [applyEvent, ha, furitenNow, ownDrawState, htemp]
    · simp [applyEvent, ha, furitenNow, htemp]
  | dahai actor pai tg =>
    have : (actor == q.player_id) = false := by
      subst hq
      simpa [isOwnDahai, preResolve_player_id] using hd
    simp [applyEvent, this, furitenNow, htemp]
  | chi actor tgt pai con =>
    by_cases ha : actor == q.player_id
    · simp [applyEvent, ha, furitenNow, htemp]
    · simp [applyEvent, ha, furitenNow, htemp]
  | pon actor tgt pai con =>
    by_cases ha : actor == q.player_id
    · simp [applyEvent, ha, furitenNow, htemp]
    · simp [applyEvent, ha, furitenNow, htemp]
  | daiminkan actor tgt pai con =>
    by_cases ha : actor == q.player_id
    · simp [applyEvent, ha, furitenNow, htemp]
    · simp [applyEvent, ha, furitenNow, htemp]
  | ankan actor con =>
    by_cases ha : actor == q.player_id
    · simp [applyEvent, ha, furitenNow, htemp]
    · simp [applyEvent, ha, furitenNow, htemp]
  | kakan actor pai con =>
    by_cases ha : actor == q.player_id
    · simp [applyEvent, ha, furitenNow, htemp]
    · simp [applyEvent, ha, furitenNow, htemp]
  | dora dm => simp [applyEvent, furitenNow, htemp]
  | reach actor =>
    by_cases ha : actor == q.player_id
    · simp [applyEvent, ha, furitenNow, htemp]
    · simp [applyEvent, ha, furitenNow, htemp]
  | reach_accepted actor =>
    by_cases ha : actor == q.player_id
    · simp [applyEvent, ha, furitenNow, htemp]
    · simp [applyEvent, ha, furitenNow, htemp]
  | hora a t => simp [applyEvent, furitenNow, htemp]
  | ryukyoku => simp [applyEvent, furitenNow, htemp]
  | end_kyoku => simp [applyEvent, furitenNow, htemp]
  | end_game => simp [applyEvent, furitenNow, htemp]

/-- C1 (amended) part 2: the seat's own discard completes its turn: the
temporary flag is cleared there, and `at_furiten` afterwards holds only
through the permanent or riichi kinds. -/
lemma own_discard_clears_temp :
    ∀ (s : MState) (pai : T37) (tg : Bool),
      (update s (.dahai s.player_id pai tg)).temp_furiten = false ∧
      (update s (.dahai s.player_id pai tg)).at_furiten =
        (permanentFuriten (update s (.dahai s.player_id pai tg)).waits
           (update s (.dahai s.player_id pai tg)).discarded_tiles ||
          (update s (.dahai s.player_id pai tg)).riichi_furiten) := by
  intro s pai tg
  simp only [update, applyEvent, preResolve_player_id, beq_self_eq_true, if_true]
  constructor
  · rfl
  · simp [finalize, furitenNow]

/-- C1 (amended): temporary same-cycle furiten: once the missed ron is
marked, `at_furiten` becomes true at the next event, and it is cleared
when the seat's own next turn completes — at its next discard, not at the
start of the turn (the draw). -/
theorem temp_furiten_conversion_and_clear :
    (∀ (s : MState) (e : Event),
      s.same_cycle_pending = true →
      isOwnHora s.player_id e = false →
      isOwnDahai s.player_id e = false →
      isStartKyoku e = false →
      (update s e).at_furiten = true) ∧
    (∀ (s : MState) (pai : T37) (tg : Bool),
      (update s (.dahai s.player_id pai tg)).temp_furiten = false ∧
      (update s (.dahai s.player_id pai tg)).at_furiten =
        (permanentFuriten (update s (.dahai s.player_id pai tg)).waits
           (update s (.dahai s.player_id pai tg)).discarded_tiles ||
          (update s (.dahai s.player_id pai tg)).riichi_furiten)) :=
  ⟨same_cycle_mark_converts, own_discard_clears_temp⟩

set_option maxRecDepth 1000000 in
/-- C1 witness: the amended statement at the fixture's concrete states:
the pending mark of `fuLogC` converts on seat 2's draw, and the tracked
seat's own 3s discard clears the temporary flag. -/
theorem temp_furiten_conversion_and_clear_witness :
    ((runEvents init0 fuLogC).same_cycle_pending = true ∧
      (update (runEvents init0 fuLogC) (.tsumo 2 uk)).at_furiten = true) ∧
    (update (runEvents init0 fuLogF)
      (.dahai (runEvents init0 fuLogF).player_id (pt s3) true)).temp_furiten
      = false :=
  ⟨⟨by decide,
    temp_furiten_conversion_and_clear.1 (runEvents init0 fuLogC) (.tsumo 2 uk)
      (by decide) (by decide) (by decide) (by decide)⟩,
   (temp_furiten_conversion_and_clear.2 (runEvents init0 fuLogF) (pt s3) true).1⟩

/-- Monotonicity: `preResolve` never clears the riichi-furiten flag. -/
lemma preResolve_rf_mono (s : MState) (e : Event) (h : s.riichi_furiten = true) :
    (preResolve s e).riichi_furiten = true := by
  simp [preResolve, h]

/-- After `preResolve`, riichi furiten forces the folded `at_furiten`. -/
lemma preResolve_at_furiten_of_rf (s : MState) (e : Event)
    (h : (preResolve s e).riichi_furiten = true) :
    (preResolve s e).at_furiten = true := by
  simp only [preResolve] at h ⊢
  simp [furitenNow, h]

/-- One update step preserves riichi furiten (only `start_kyoku` resets
it), keeps `at_furiten` true, and never offers a ron. -/
lemma update_keeps_riichi_furiten :
    ∀ (s : MState) (e : Event),
      isStartKyoku e = false →
      (preResolve s e).riichi_furiten = true →
      (update s e).riichi_furiten = true ∧ (update s e).at_furiten = true ∧
      (update s e).last_cans.can_ron_agari = false := by
  intro s e hs hq
  have hf := preResolve_at_furiten_of_rf s e hq
  rw [update]
  generalize hgen : preResolve s e = q at hq hf
  cases e with
  | start_kyoku a b c d o sc dm th => simp [isStartKyoku] at hs
  | tsumo actor pai =>
    by_cases ha : actor == q.player_id
    · simp [applyEvent, ha, finalize, furitenNow, ownDrawState, ownDrawCans, hq]
    · simp [applyEvent, ha, finalize, furitenNow, hq]
  | dahai actor pai tg =>
    by_cases ha : actor == q.player_id
    · simp [applyEvent, ha, finalize, furitenNow, hq]
    · simp [applyEvent, ha, finalize, furitenNow, hq, hf]
  | chi actor tgt pai con =>
    by_cases ha : actor == q.player_id
    · simp [applyEvent, ha, finalize, furitenNow, hq]
    · simp [applyEvent, ha, finalize, furitenNow, hq]
  | pon actor tgt pai con =>
    by_cases ha : actor == q.player_id
    · simp [applyEvent, ha, finalize, furitenNow, hq]
    · simp [applyEvent, ha, finalize, furitenNow, hq]
  | daiminkan actor tgt pai con =>
    by_cases ha : actor == q.player_id
    · simp [applyEvent, ha, finalize, furitenNow, hq]
    · simp [applyEvent, ha, finalize, furitenNow, hq]
  | ankan actor con =>
    by_cases ha : actor == q.player_id
    · simp [applyEvent, ha, finalize, furitenNow, hq]
    · simp [applyEvent, ha, finalize, furitenNow, hq]
  | kakan actor pai con =>
    by_cases ha : actor == q.player_id
    · simp [applyEvent, ha, finalize, furitenNow, hq]
    · simp [applyEvent, ha, finalize, furitenNow, hq, hf]
  | dora dm => simp [applyEvent, finalize, furitenNow, hq]
  | reach actor =>
    by_cases ha : actor == q.player_id
    · simp [applyEvent, ha, finalize, furitenNow, hq]
    · simp [applyEvent, ha, finalize, furitenNow, hq]
  | reach_accepted actor =>
    by_cases ha : actor == q.player_id
    · simp [applyEvent, ha, finalize, furitenNow, hq]
    · simp [applyEvent, ha, finalize, furitenNow, hq]
  | hora a t => simp [applyEvent, finalize, furitenNow, hq]
  | ryukyoku => simp [applyEvent, finalize, furitenNow, hq]
  | end_kyoku => simp [applyEvent, finalize, furitenNow, hq]
  | end_game => simp [applyEvent, finalize, furitenNow, hq]

/-- Invariant: once riichi furiten holds (with the folded bit and no ron
candidate), every state visited by further non-`start_kyoku` events keeps
`at_furiten` true and never offers a ron. -/
lemma riichi_furiten_invariant :
    ∀ (es : List Event) (s : MState),
      s.riichi_furiten = true → s.at_furiten = true →
      s.last_cans.can_ron_agari = false →
      (∀ e' ∈ es, isStartKyoku e' = false) →
      ∀ t ∈ statesFrom s es,
        t.at_furiten = true ∧ t.last_cans.can_ron_agari = false := by
  intro es
  induction es with
  | nil =>
    intro s _hr hf hc _hs t ht
    simp [statesFrom] at ht
    subst ht
    exact ⟨hf, hc⟩
  | cons e rest ih =>
    intro s hr hf hc hs t ht
    simp only [statesFrom, List.mem_cons] at ht
    rcases ht with rfl | ht
    · exact ⟨hf, hc⟩
    · have hse : isStartKyoku e = false := hs e (by simp)
      have hq := preResolve_rf_mono s e hr
      obtain ⟨h1, h2, h3⟩ := update_keeps_riichi_furiten s e hse hq
      exact ih (update s e) h1 h2 h3 (fun e' he' => hs e' (by simp [he'])) t ht

/-- C2: riichi furiten is permanent: after accepted riichi, passing on a
ronnable tile (a standing `can_ron_agari`, or a possible tsumo agari
declined by the seat's own discard) makes `at_furiten` true at every
subsequent point of the hand, and `can_ron_agari` is never set again —
also when a wait tile is later discarded by another seat. -/
theorem riichi_furiten_is_permanent :
    ∀ (s : MState) (e : Event) (es : List Event),
      s.riichi_accepted_self = true →
      (s.last_cans.can_ron_agari = true ∨
        (s.last_cans.can_tsumo_agari = true ∧ isOwnDahai s.player_id e = true)) →
      isOwnHora s.player_id e = false →
      (∀ e' ∈ e :: es, isStartKyoku e' = false) →
      ∀ t ∈ statesFrom (update s e) es,
        t.at_furiten = true ∧ t.last_cans.can_ron_agari = false := by
  intro s e es hacc hmiss hnh hs t ht
  have hq : (preResolve s e).riichi_furiten = true := by
    rcases hmiss with h | ⟨h1, h2⟩
    · simp [preResolve, hacc, hnh, h]
    · simp [preResolve, hacc, hnh, h1, h2]
  have hse : isStartKyoku e = false := hs e (by simp)
  obtain ⟨h1, h2, h3⟩ := update_keeps_riichi_furiten s e hse hq
  exact riichi_furiten_invariant es (update s e) h1 h2 h3
    (fun e' he' => hs e' (by simp [he'])) t ht

set_option maxRecDepth 1000000 in
/-- C2 witness: the minogashi of the riichi fixture: the seat declines
the tsumo agari on its drawn 1m by discarding it; along the following
events — including seat 1's discard of the wait tile 4s — `at_furiten`
stays true and no ron is ever offered. -/
theorem riichi_furiten_is_permanent_witness :
    ((runEvents init0 fuLogK).riichi_accepted_self = true ∧
      (runEvents init0 fuLogK).last_cans.can_tsumo_agari = true ∧
      isOwnDahai (runEvents init0 fuLogK).player_id
        (Event.dahai 0 (pt m1) true) = true ∧
      isOwnHora (runEvents init0 fuLogK).player_id
        (Event.dahai 0 (pt m1) true) = false) ∧
    (∀ t ∈ statesFrom (update (runEvents init0 fuLogK)
        (Event.dahai 0 (pt m1) true))
        [Event.tsumo 1 uk, Event.dahai 1 (pt s4) true],
      t.at_furiten = true ∧ t.last_cans.can_ron_agari = false) :=
  ⟨⟨by decide, by decide, by decide, by decide⟩,
    riichi_furiten_is_permanent (runEvents init0 fuLogK)
      (Event.dahai 0 (pt m1) true)
      [Event.tsumo 1 uk, Event.dahai 1 (pt s4) true]
      (by decide) (Or.inr ⟨by decide, by decide⟩) (by decide) (by decide)⟩


end Mortal
